import Mathlib

/-!
Shallow embedding of `source/s3_util.c` from the aws-c-s3 repository,
together with the client facts its private header
(`include/aws/s3/private/s3_client_impl.h`) and the design spec describe.

Modelling conventions:
* `struct aws_byte_cursor` fields are modelled as `String`; the C test
  `cursor.len > 0` becomes `s ≠ ""`.
* Pointer-valued fields (`struct aws_string *`, `struct aws_credentials *`,
  function pointers) are modelled as `Option _`, with `none` for `NULL`;
  opaque pointers carry a `Nat` identity.
* C enums from the external aws-c-auth header are modelled as `Nat`
  constants with the numeric values of that header; `calloc`/`AWS_ZERO_STRUCT`
  produce the all-zero value of each struct.
-/

namespace S3Util

/-- Signing flags bitfield of `struct aws_signing_config_aws`
(external aws-c-auth struct as used by `s3_util.c`). -/
structure SigningFlags where
  use_double_uri_encode : Bool
  should_normalize_uri_path : Bool
  omit_session_token : Bool
  deriving Repr, DecidableEq

/-- The all-zero `flags` bitfield produced by `AWS_ZERO_STRUCT`/`calloc`. -/
def zeroSigningFlags : SigningFlags :=
  { use_double_uri_encode := false
    should_normalize_uri_path := false
    omit_session_token := false }

/-- `struct aws_signing_config_aws` (external aws-c-auth struct), restricted
to the fields `s3_util.c` reads and writes. Cursors are `String`s, pointers
are `Option Nat`, `date` is the tick count of the `aws_date_time`. -/
structure SigningConfig where
  config_type : Nat
  algorithm : Nat
  signature_type : Nat
  region : String
  service : String
  date : Nat
  should_sign_header : Option Nat
  flags : SigningFlags
  signed_body_value : String
  signed_body_header : Nat
  credentials : Option Nat
  credentials_provider : Option Nat
  expiration_in_seconds : Nat
  deriving Repr, DecidableEq

/-- The all-zero `aws_signing_config_aws` produced by
`AWS_ZERO_STRUCT`/`calloc`: empty cursors, null pointers, zero scalars. -/
def zeroSigningConfig : SigningConfig :=
  { config_type := 0
    algorithm := 0
    signature_type := 0
    region := ""
    service := ""
    date := 0
    should_sign_header := none
    flags := zeroSigningFlags
    signed_body_value := ""
    signed_body_header := 0
    credentials := none
    credentials_provider := none
    expiration_in_seconds := 0 }

/-- `AWS_SIGNING_CONFIG_AWS` from the external aws-c-auth enum
`aws_signing_config_type` (the only non-zero member). -/
def AWS_SIGNING_CONFIG_AWS : Nat := 1

/-- `AWS_SIGNING_ALGORITHM_V4`, first member of the external aws-c-auth enum
`aws_signing_algorithm`. -/
def AWS_SIGNING_ALGORITHM_V4 : Nat := 0

/-- `AWS_SBHT_NONE` from the external aws-c-auth enum
`aws_signed_body_header_type`. -/
def AWS_SBHT_NONE : Nat := 0

/-- `AWS_SBHT_X_AMZ_CONTENT_SHA256` from the external aws-c-auth enum
`aws_signed_body_header_type`. -/
def AWS_SBHT_X_AMZ_CONTENT_SHA256 : Nat := 1

/-- `g_aws_signed_body_value_unsigned_payload` from external aws-c-auth:
the literal `"UNSIGNED-PAYLOAD"`. -/
def g_aws_signed_body_value_unsigned_payload : String := "UNSIGNED-PAYLOAD"

/-- `g_s3_service_name` from `s3_util.c`: the byte cursor `"s3"`. -/
def g_s3_service_name : String := "s3"

/-- `g_s3_max_num_upload_parts` from `s3_util.c`. -/
def g_s3_max_num_upload_parts : Nat := 10000

/-- `struct aws_cached_signing_config_aws`: the owned `aws_string *` fields
(`none` when never allocated, i.e. left `NULL` by `calloc`) plus the embedded
`config` whose cursors point at those strings. -/
structure CachedSigningConfig where
  region : Option String
  service : Option String
  signed_body_value : Option String
  config : SigningConfig
  deriving Repr, DecidableEq

/-- `aws_cached_signing_config_new` from `s3_util.c`, line by line: start from
the calloc-zeroed struct, copy the scalar fields, copy `region` and `service`
into owned strings when their cursors are non-empty, and copy
`signed_body_value` under the guard the C source actually uses —
`signing_config->service.len > 0`. Credentials/provider pointers are stored
when non-`NULL` (the acquire side effect is modelled by `newCredAcquires`
below). -/
def aws_cached_signing_config_new (signing_config : SigningConfig) :
    CachedSigningConfig :=
  let z := zeroSigningConfig
  let c0 : SigningConfig :=
    { z with
      config_type := signing_config.config_type
      algorithm := signing_config.algorithm
      signature_type := signing_config.signature_type }
  let regionStr : Option String :=
    if signing_config.region ≠ "" then some signing_config.region else none
  let c1 : SigningConfig :=
    if signing_config.region ≠ "" then { c0 with region := signing_config.region } else c0
  let serviceStr : Option String :=
    if signing_config.service ≠ "" then some signing_config.service else none
  let c2 : SigningConfig :=
    if signing_config.service ≠ "" then { c1 with service := signing_config.service } else c1
  let c3 : SigningConfig :=
    { c2 with
      date := signing_config.date
      should_sign_header := signing_config.should_sign_header
      flags := signing_config.flags }
  let sbvStr : Option String :=
    if signing_config.service ≠ "" then some signing_config.signed_body_value else none
  let c4 : SigningConfig :=
    if signing_config.service ≠ "" then
      { c3 with signed_body_value := signing_config.signed_body_value }
    else c3
  let c5 : SigningConfig :=
    { c4 with signed_body_header := signing_config.signed_body_header }
  let c6 : SigningConfig :=
    if signing_config.credentials.isSome then
      { c5 with credentials := signing_config.credentials }
    else c5
  let c7 : SigningConfig :=
    if signing_config.credentials_provider.isSome then
      { c6 with credentials_provider := signing_config.credentials_provider }
    else c6
  let c8 : SigningConfig :=
    { c7 with expiration_in_seconds := signing_config.expiration_in_seconds }
  { region := regionStr
    service := serviceStr
    signed_body_value := sbvStr
    config := c8 }

/-- Reference acquisitions performed by `aws_cached_signing_config_new`:
one on `credentials` and one on `credentials_provider`, each exactly when
the pointer is non-`NULL`. First component: credentials acquires; second:
provider acquires. -/
def newCredAcquires (signing_config : SigningConfig) : Nat × Nat :=
  ((if signing_config.credentials.isSome then 1 else 0),
   (if signing_config.credentials_provider.isSome then 1 else 0))

/-- String allocations performed by `aws_cached_signing_config_new`
(`aws_string_new_from_cursor` calls), as the triple of flags
(region allocated, service allocated, signed_body_value allocated),
reading the guards off the C source. -/
def newStringAllocs (signing_config : SigningConfig) : Bool × Bool × Bool :=
  (signing_config.region ≠ "", signing_config.service ≠ "",
   signing_config.service ≠ "")

/-- Reference releases performed by `aws_cached_signing_config_destroy`:
`aws_credentials_release` / `aws_credentials_provider_release` are null-safe,
so each releases exactly when the stored pointer is non-`NULL`. -/
def destroyCredReleases (cached : CachedSigningConfig) : Nat × Nat :=
  ((if cached.config.credentials.isSome then 1 else 0),
   (if cached.config.credentials_provider.isSome then 1 else 0))

/-- String deallocations performed by `aws_cached_signing_config_destroy`:
`aws_string_destroy` is null-safe, so each owned string is destroyed exactly
when it is non-`NULL`, as (region, service, signed_body_value) flags. -/
def destroyStringFrees (cached : CachedSigningConfig) : Bool × Bool × Bool :=
  (cached.region.isSome, cached.service.isSome, cached.signed_body_value.isSome)

/-- `aws_s3_init_default_signing_config` from `s3_util.c`:
`AWS_ZERO_STRUCT` then assign exactly the listed fields. -/
def aws_s3_init_default_signing_config (region : String)
    (credentials_provider : Nat) : SigningConfig :=
  { zeroSigningConfig with
    config_type := AWS_SIGNING_CONFIG_AWS
    algorithm := AWS_SIGNING_ALGORITHM_V4
    credentials_provider := some credentials_provider
    region := region
    service := g_s3_service_name
    signed_body_header := AWS_SBHT_X_AMZ_CONTENT_SHA256
    signed_body_value := g_aws_signed_body_value_unsigned_payload
    flags := { zeroSigningFlags with should_normalize_uri_path := true } }

/-- An XML element node as exposed by the external aws-c-common
`aws_xml_parser`: a name, a body, and child elements. -/
inductive XmlNode where
  | mk (name : String) (body : String) (children : List XmlNode)

/-- `aws_xml_node_get_name` of a node. -/
def XmlNode.name : XmlNode → String
  | .mk n _ _ => n

/-- `aws_xml_node_as_body` of a node. -/
def XmlNode.body : XmlNode → String
  | .mk _ b _ => b

/-- The immediate child elements of a node. -/
def XmlNode.children : XmlNode → List XmlNode
  | .mk _ _ cs => cs

/-- `s_top_level_xml_tag_value_child_xml_node` driven over the child list by
`aws_xml_node_traverse`: the callback is invoked on each immediate child in
order; on the first child whose name equals `tag_name` it stores that child's
body in the user data result and returns `false` (stop); otherwise it returns
`true` (keep looking). The callback never calls `aws_xml_node_traverse`
itself, so grandchildren are never visited. -/
def s_top_level_xml_tag_value_child_traverse (tag_name : String) :
    List XmlNode → Option String
  | [] => none
  | node :: rest =>
    if node.name = tag_name then some node.body
    else s_top_level_xml_tag_value_child_traverse tag_name rest

/-- `s_top_level_xml_tag_value_root_xml_node`: traverse the root node's
children with the child callback, then stop. -/
def s_top_level_xml_tag_value_root_xml_node (tag_name : String)
    (root : XmlNode) : Option String :=
  s_top_level_xml_tag_value_child_traverse tag_name root.children

/-- `get_top_level_xml_tag_value` from `s3_util.c`. The external
`aws_xml_parser_parse` may report failure (malformed document); `parse_ok`
models its return status. On failure the C code destroys whatever result the
callbacks had stored and returns `NULL`; on success it returns the stored
result (`NULL` when no tag matched). -/
def get_top_level_xml_tag_value (parse_ok : Bool) (tag_name : String)
    (root : XmlNode) : Option String :=
  let result := s_top_level_xml_tag_value_root_xml_node tag_name root
  if parse_ok then result else none

/-- Drop the grandchildren of a node: keep its immediate children's names and
bodies but erase everything nested deeper. -/
def XmlNode.pruneDepth1 : XmlNode → XmlNode
  | .mk n b cs => .mk n b (cs.map fun c => .mk c.name c.body [])

/-- `aws_http_headers_get` as used on a header collection: return the value
of the first entry whose name matches. -/
def hget (headers : List (String × String)) (name : String) : Option String :=
  (headers.find? fun p => p.1 = name).map Prod.snd

/-- `aws_http_headers_set` (external aws-c-http): remove every existing entry
with this name, then add the new `(name, value)` entry. -/
def hset (headers : List (String × String)) (name value : String) :
    List (String × String) :=
  (headers.filter fun p => p.1 ≠ name) ++ [(name, value)]

/-- `copy_http_headers` from `s3_util.c`: walk `src` by index from `0` to
`count - 1`, and `aws_http_headers_set` each `(name, value)` into `dest`.
The C function takes `src` as a `const` pointer and only reads it; the model
returns the final `(src, dest)` pair of collections. -/
def copy_http_headers (src dest : List (String × String)) :
    List (String × String) × List (String × String) :=
  (src, src.foldl (fun d p => hset d p.1 p.2) dest)

/-- The value of the last occurrence of `name` in `src`, if any (`none`
exactly when no entry of `src` has that name). -/
def lastValue : List (String × String) → String → Option String
  | [], _ => none
  | p :: rest, name =>
    match lastValue rest name with
    | some v => some v
    | none => if p.1 = name then some p.2 else none

/-- `AWS_ERROR_SUCCESS` from external aws-c-common: always `0`. -/
def AWS_ERROR_SUCCESS : Nat := 0

/-- `AWS_ERROR_UNKNOWN` from the external aws-c-common error enum; its exact
numeric value is immaterial here beyond being a fixed non-zero code. -/
def AWS_ERROR_UNKNOWN : Nat := 26

/-- `aws_last_error_or_unknown` from `s3_util.c`, as a function of the
thread-local last error code returned by `aws_last_error`. -/
def aws_last_error_or_unknown (last_error : Nat) : Nat :=
  if last_error = AWS_ERROR_SUCCESS then AWS_ERROR_UNKNOWN else last_error

/-- Modelled from the spec: the code computing `ideal_vip_count` is not in
the provided sources (only its field declaration in `s3_client_impl.h` and
the spec sentence "The ideal VIP count is `ceil(target_gbps /
throughput_per_vip)` computed at construction"). Throughputs are modelled as
rationals. -/
def idealVipCount (throughput_target_gbps throughput_per_vip : ℚ) : ℤ :=
  ⌈throughput_target_gbps / throughput_per_vip⌉

/-! Helper lemmas (shared; not tied to a single claim). -/

/-- The child traversal returns the body of the first immediate child whose
name matches, i.e. it is `find?` followed by taking the body. -/
theorem child_traverse_eq_find (tag : String) (cs : List XmlNode) :
    s_top_level_xml_tag_value_child_traverse tag cs =
      (cs.find? fun c => c.name = tag).map XmlNode.body := by
  induction cs with
  | nil => rfl
  | cons c rest ih =>
    by_cases h : c.name = tag <;>
      simp [s_top_level_xml_tag_value_child_traverse, List.find?_cons, h, ih]

/-- The child traversal only reads the name and body of each immediate child,
so erasing grandchildren does not change it. -/
theorem child_traverse_prune (tag : String) (cs : List XmlNode) :
    s_top_level_xml_tag_value_child_traverse tag
      (cs.map fun c => XmlNode.mk c.name c.body []) =
      s_top_level_xml_tag_value_child_traverse tag cs := by
  induction cs with
  | nil => rfl
  | cons c rest ih =>
    obtain ⟨n, b, gs⟩ := c
    simp only [List.map_cons, s_top_level_xml_tag_value_child_traverse,
      XmlNode.name, XmlNode.body]
    by_cases h : n = tag
    · rw [if_pos h, if_pos h]
    · rw [if_neg h, if_neg h]; exact ih

/-- `aws_http_headers_get` after `aws_http_headers_set`: the set name reads
back the new value, any other name is unchanged. -/
theorem hget_hset (d : List (String × String)) (n v m : String) :
    hget (hset d n v) m = if m = n then some v else hget d m := by
  induction d with
  | nil =>
    by_cases h : m = n
    · simp [hget, hset, List.find?, h]
    · simp [hget, hset, List.find?, h, Ne.symm h]
  | cons q t ih =>
    by_cases hqn : q.1 = n <;> by_cases hqm : q.1 = m <;>
      simp only [hget, hset] at ih ⊢ <;>
      simp_all [List.filter_cons, List.find?_cons, hqn, hqm]

/-- Folding `hset` over `src` makes each name read back the last value `src`
gives it, and leaves names `src` never mentions unchanged. -/
theorem copy_fold_get (src : List (String × String)) :
    ∀ (dest : List (String × String)) (m : String),
      hget (src.foldl (fun d p => hset d p.1 p.2) dest) m =
        match lastValue src m with
        | some v => some v
        | none => hget dest m := by
  induction src with
  | nil => intro dest m; rfl
  | cons p t ih =>
    intro dest m
    simp only [List.foldl_cons, lastValue]
    rw [ih]
    cases hl : lastValue t m with
    | some v => simp
    | none =>
      rw [hget_hset]
      by_cases h : p.1 = m
      · simp [h]
      · simp [h, Ne.symm h]

/-! Claim theorems. -/

/-- Claim C10: the multipart upload part-count cap `g_s3_max_num_upload_parts`
equals 10000. -/
theorem C10_max_num_upload_parts_is_10000 : g_s3_max_num_upload_parts = 10000 :=
  rfl

/-- Claim C9: `aws_last_error_or_unknown` never returns `AWS_ERROR_SUCCESS`:
it passes a non-success last error through unchanged and maps success to
`AWS_ERROR_UNKNOWN`. -/
theorem C9_last_error_or_unknown_never_success (e : Nat) :
    aws_last_error_or_unknown e ≠ AWS_ERROR_SUCCESS ∧
    (e ≠ AWS_ERROR_SUCCESS → aws_last_error_or_unknown e = e) ∧
    (e = AWS_ERROR_SUCCESS → aws_last_error_or_unknown e = AWS_ERROR_UNKNOWN) := by
  unfold aws_last_error_or_unknown AWS_ERROR_SUCCESS AWS_ERROR_UNKNOWN
  by_cases h : e = 0 <;> simp [h]

/-- Witness for C9 at the concrete last-error value 0. -/
theorem C9_witness :
    aws_last_error_or_unknown 0 = AWS_ERROR_UNKNOWN :=
  (C9_last_error_or_unknown_never_success 0).2.2 rfl

/-- Claim C4: whenever the XML parser reports failure,
`get_top_level_xml_tag_value` returns `NULL`, for every document and tag —
including documents in which a matching tag body had been stored before the
failure. -/
theorem C4_parse_failure_returns_null (tag : String) (root : XmlNode) :
    get_top_level_xml_tag_value false tag root = none :=
  rfl

/-- Claim C5: `aws_s3_init_default_signing_config` zeroes the struct and sets
exactly config_type `AWS_SIGNING_CONFIG_AWS`, algorithm SigV4, the given
provider and region, service `"s3"`, the SHA256 signed-body header, the
unsigned-payload signed-body value, and `should_normalize_uri_path`; every
other field stays zero. -/
theorem C5_default_signing_config (region : String) (cp : Nat) :
    (aws_s3_init_default_signing_config region cp).config_type =
      AWS_SIGNING_CONFIG_AWS ∧
    (aws_s3_init_default_signing_config region cp).algorithm =
      AWS_SIGNING_ALGORITHM_V4 ∧
    (aws_s3_init_default_signing_config region cp).credentials_provider =
      some cp ∧
    (aws_s3_init_default_signing_config region cp).region = region ∧
    (aws_s3_init_default_signing_config region cp).service =
      g_s3_service_name ∧
    (aws_s3_init_default_signing_config region cp).signed_body_header =
      AWS_SBHT_X_AMZ_CONTENT_SHA256 ∧
    (aws_s3_init_default_signing_config region cp).signed_body_value =
      g_aws_signed_body_value_unsigned_payload ∧
    (aws_s3_init_default_signing_config region cp).flags.should_normalize_uri_path =
      true ∧
    (aws_s3_init_default_signing_config region cp).signature_type = 0 ∧
    (aws_s3_init_default_signing_config region cp).date = 0 ∧
    (aws_s3_init_default_signing_config region cp).should_sign_header = none ∧
    (aws_s3_init_default_signing_config region cp).flags.use_double_uri_encode =
      false ∧
    (aws_s3_init_default_signing_config region cp).flags.omit_session_token =
      false ∧
    (aws_s3_init_default_signing_config region cp).credentials = none ∧
    (aws_s3_init_default_signing_config region cp).expiration_in_seconds = 0 :=
  ⟨rfl, rfl, rfl, rfl, rfl, rfl, rfl, rfl, rfl, rfl, rfl, rfl, rfl, rfl, rfl⟩

/-- Claim C2: on a successfully parsed document,
`get_top_level_xml_tag_value` returns the body of the first immediate child
of the root whose name equals the tag (and `NULL` when none matches); it
never looks below depth 1 (erasing all grandchildren changes nothing), and
extraction succeeds exactly when some immediate child of the root matches. -/
theorem C2_top_level_tag_first_depth1_child (tag : String) (root : XmlNode) :
    get_top_level_xml_tag_value true tag root =
      (root.children.find? fun c => c.name = tag).map XmlNode.body ∧
    get_top_level_xml_tag_value true tag root.pruneDepth1 =
      get_top_level_xml_tag_value true tag root ∧
    ((get_top_level_xml_tag_value true tag root).isSome ↔
      ∃ c ∈ root.children, c.name = tag) := by
  have h1 : ∀ r : XmlNode, get_top_level_xml_tag_value true tag r =
      (r.children.find? fun c => c.name = tag).map XmlNode.body := by
    intro r
    simp [get_top_level_xml_tag_value, s_top_level_xml_tag_value_root_xml_node,
      child_traverse_eq_find]
  refine ⟨h1 root, ?_, ?_⟩
  · obtain ⟨n, b, cs⟩ := root
    simp only [get_top_level_xml_tag_value, s_top_level_xml_tag_value_root_xml_node,
      XmlNode.pruneDepth1, XmlNode.children, if_true]
    rw [child_traverse_prune]
  · rw [h1 root]
    simp [List.find?_isSome]

/-- Claim C8: after `copy_http_headers src dest`, looking up any name in the
destination yields the value of that name's last occurrence in `src` when the
name occurs in `src`, and the destination's previous value otherwise; the
source collection is returned unchanged. -/
theorem C8_copy_http_headers_spec (src dest : List (String × String)) :
    (copy_http_headers src dest).1 = src ∧
    ∀ m : String, hget (copy_http_headers src dest).2 m =
      match lastValue src m with
      | some v => some v
      | none => hget dest m :=
  ⟨rfl, fun m => copy_fold_get src dest m⟩

/-- Claim C3: `aws_cached_signing_config_new` preserves the scalar fields
(config_type, algorithm, signature_type, date, should_sign_header, flags,
signed_body_header, expiration_in_seconds) and copies region and service
into owned strings, wired into the cached config's cursors, whenever the
source cursors are non-empty. -/
theorem C3_cached_config_preserves_fields (sc : SigningConfig) :
    (aws_cached_signing_config_new sc).config.config_type = sc.config_type ∧
    (aws_cached_signing_config_new sc).config.algorithm = sc.algorithm ∧
    (aws_cached_signing_config_new sc).config.signature_type = sc.signature_type ∧
    (aws_cached_signing_config_new sc).config.date = sc.date ∧
    (aws_cached_signing_config_new sc).config.should_sign_header =
      sc.should_sign_header ∧
    (aws_cached_signing_config_new sc).config.flags = sc.flags ∧
    (aws_cached_signing_config_new sc).config.signed_body_header =
      sc.signed_body_header ∧
    (aws_cached_signing_config_new sc).config.expiration_in_seconds =
      sc.expiration_in_seconds ∧
    (sc.region ≠ "" →
      (aws_cached_signing_config_new sc).region = some sc.region ∧
      (aws_cached_signing_config_new sc).config.region = sc.region) ∧
    (sc.service ≠ "" →
      (aws_cached_signing_config_new sc).service = some sc.service ∧
      (aws_cached_signing_config_new sc).config.service = sc.service) := by
  simp only [aws_cached_signing_config_new]
  split_ifs <;> simp_all

/-- Witness for C3 at a concrete config with non-empty region and service. -/
theorem C3_witness :
    (aws_cached_signing_config_new
      { zeroSigningConfig with region := "us-west-2", service := "s3" }).region =
        some "us-west-2" ∧
    (aws_cached_signing_config_new
      { zeroSigningConfig with region := "us-west-2", service := "s3" }).service =
        some "s3" := by
  have h := C3_cached_config_preserves_fields
    { zeroSigningConfig with region := "us-west-2", service := "s3" }
  exact ⟨(h.2.2.2.2.2.2.2.2.1 (by decide)).1, (h.2.2.2.2.2.2.2.2.2 (by decide)).1⟩

/-- Claim C6: destroying the cached config is resource-neutral: the destroy
path releases exactly the credential/provider references the construction
acquired, and frees exactly the strings it allocated. -/
theorem C6_destroy_resource_neutral (sc : SigningConfig) :
    destroyCredReleases (aws_cached_signing_config_new sc) = newCredAcquires sc ∧
    destroyStringFrees (aws_cached_signing_config_new sc) = newStringAllocs sc := by
  simp only [destroyCredReleases, destroyStringFrees, newCredAcquires,
    newStringAllocs, aws_cached_signing_config_new, zeroSigningConfig]
  split_ifs <;> simp_all

/-- Claim C1, evaluated on the code: the copy of `signed_body_value` in
`aws_cached_signing_config_new` is guarded by `service.len > 0`, not by
`signed_body_value.len > 0`. With an empty service and the non-empty
signed-body value `"UNSIGNED-PAYLOAD"`, the cached copy is `NULL`; with a
non-empty service and an empty signed-body value, the cached copy is a
non-`NULL` empty string. Both outcomes contradict the claimed guard. -/
theorem C1_signed_body_value_guard_uses_service :
    ({ zeroSigningConfig with
        signed_body_value := "UNSIGNED-PAYLOAD" } : SigningConfig).signed_body_value
      ≠ "" ∧
    (aws_cached_signing_config_new
      { zeroSigningConfig with
        signed_body_value := "UNSIGNED-PAYLOAD" }).signed_body_value = none ∧
    ({ zeroSigningConfig with service := "s3" } : SigningConfig).signed_body_value
      = "" ∧
    (aws_cached_signing_config_new
      { zeroSigningConfig with service := "s3" }).signed_body_value =
        some "" := by
  refine ⟨by decide, ?_, rfl, ?_⟩ <;> rfl

/-- Claim C7: the ideal VIP count is the ceiling of the throughput target
divided by the per-VIP throughput: it is an upper bound on the quotient and
the least integer upper bound. -/
theorem C7_ideal_vip_count_is_ceiling (t p : ℚ) :
    t / p ≤ (idealVipCount t p : ℚ) ∧
    ∀ n : ℤ, t / p ≤ (n : ℚ) → idealVipCount t p ≤ n :=
  ⟨Int.le_ceil _, fun _ h => Int.ceil_le.mpr h⟩

/-- Witness for C7 at a 100 Gbps target and 8 Gbps per VIP: the count is at
least 100/8 and at most 13. -/
theorem C7_witness :
    (100 : ℚ) / 8 ≤ (idealVipCount 100 8 : ℚ) ∧ idealVipCount 100 8 ≤ 13 :=
  ⟨(C7_ideal_vip_count_is_ceiling 100 8).1,
   (C7_ideal_vip_count_is_ceiling 100 8).2 13 (by norm_num)⟩

end S3Util
